import Mathlib

/-!
# Colour-management compositing plugin (`src/cms.cpp`)

A shallow embedding of the colour-management plugin: the fragment-function
cache (`CmsScreen::getFragmentFunction`), the per-window draw hook
(`CmsWindow::glDrawTexture`, `CmsWindow::updateMatch`) and the LUT builder
(`CmsScreen::setupLUT`).

Conventions of the embedding:

* C++ `int` values are `Int`; `GLuint` handles and texture names are `Nat`
  with `0` the invalid/absent value; pointers are `Nat` with `0` for `NULL`.
* Calls into the host (compiz core, the opengl plugin, lcms, Xlib, GL) are
  not part of this source file.  Their results are taken from an explicit
  environment record, and the calls the plugin makes are recorded, in program
  order, in a call trace.
* `GLfloat` constants are computed in `ℚ` (the two constants of the draw hook
  are dyadic rationals, so nothing is rounded).
-/

namespace Cms

/-! ## Fragment program assembly (`GLFragment::FunctionData`) -/

/-- Header operations recorded by `FunctionData::addTempHeaderOp`. -/
inductive HeaderOp where
  | temp (name : String)
  deriving DecidableEq, Repr

/-- Body operations recorded by `addFetchOp`, `addDataOp` (format string with
its integer arguments) and `addColorOp`. -/
inductive BodyOp where
  | fetch (dst : String) (offset : Option String) (target : Int)
  | data (str : String) (args : List Int)
  | color (dst : String) (src : String)
  deriving DecidableEq, Repr

/-- The program under assembly: the operations added so far, in order. -/
structure FunctionData where
  header : List HeaderOp
  body : List BodyOp
  deriving DecidableEq, Repr

/-- A freshly constructed `FunctionData data;`. -/
def FunctionData.new : FunctionData := { header := [], body := [] }

/-- Model of `data.addTempHeaderOp (name)`. -/
def FunctionData.addTempHeaderOp (d : FunctionData) (name : String) : FunctionData :=
  { d with header := d.header ++ [HeaderOp.temp name] }

/-- Model of `data.addFetchOp (dst, offset, target)`. -/
def FunctionData.addFetchOp (d : FunctionData) (dst : String) (offset : Option String)
    (target : Int) : FunctionData :=
  { d with body := d.body ++ [BodyOp.fetch dst offset target] }

/-- Model of `data.addDataOp (str, ...)`. -/
def FunctionData.addDataOp (d : FunctionData) (str : String) (args : List Int) : FunctionData :=
  { d with body := d.body ++ [BodyOp.data str args] }

/-- Model of `data.addColorOp (dst, src)`. -/
def FunctionData.addColorOp (d : FunctionData) (dst : String) (src : String) : FunctionData :=
  { d with body := d.body ++ [BodyOp.color dst src] }

/-- The host side of program assembly, over a host state `W` (the fragment
storage of the opengl plugin).  `status` is the answer of `data.status ()` for
an assembled program; `createFragmentFunction` registers the program under a
name and returns its handle together with the new host state.  Both are
functions: assembly is deterministic. -/
structure FragmentEnv (W : Type) where
  status : W → FunctionData → Bool
  createFragmentFunction : W → FunctionData → String → Nat × W

/-! ## Plugin data (`cms.h`) -/

/-- Cache entry `CmsFunction`: the fields read and written by
`getFragmentFunction` (`f.id`, `f.alpha`, `f.target`, `f.param`, `f.unit`). -/
structure CmsFunction where
  id : Nat
  alpha : Bool
  target : Int
  param : Int
  unit : Int
  deriving DecidableEq, Repr

/-- The members of `CmsScreen` used by the functions below: the LUT texture
name `lut` (0 when absent), the cache `cmsFunctions`, and the two options
read through `optionGetDecorations ()` and
`optionGetExcludeMatch ().evaluate (window)` (a predicate on window ids). -/
structure CmsScreen where
  lut : Nat
  cmsFunctions : List CmsFunction
  optDecorations : Bool
  optExcludeMatch : Nat → Bool

/-- The test of the lookup loop of `getFragmentFunction`:
`f.alpha == alpha && f.target == target && f.param == param && f.unit == unit`. -/
def CmsFunction.matchesKey (target : Int) (alpha : Bool) (param : Int) (unit : Int)
    (f : CmsFunction) : Bool :=
  f.alpha == alpha && f.target == target && f.param == param && f.unit == unit

/-- The program assembled by `getFragmentFunction` on a cache miss
(lines 204-228). -/
def assembleProgram (target : Int) (alpha : Bool) (param : Int) (unit : Int) : FunctionData :=
  let data := FunctionData.new
  let data := if alpha then data.addTempHeaderOp "temp" else data
  let data := data.addFetchOp "output" none target
  let data :=
    if alpha then
      (data.addDataOp "MUL output.rgb, output.a, output;" []).addDataOp
        "MUL temp.a, output.a, output.a;" []
    else data
  let data := data.addDataOp "MAD output, output, program.env[%d], program.env[%d];"
    [param, param + 1]
  let data := data.addDataOp "TEX output, output, texture[%d], 3D;" [unit]
  let data := if alpha then data.addDataOp "MUL output, temp.a, output;" [] else data
  data.addColorOp "output" "output"

/-- Model of `CmsScreen::getFragmentFunction (target, alpha, param, unit)`:
returns the handle, the screen (its cache possibly extended) and the host
state.  The `foreach` loop with its early `return f.id` is the first match of
`find?`. -/
def getFragmentFunction {W : Type} (env : FragmentEnv W) (cs : CmsScreen) (w : W)
    (target : Int) (alpha : Bool) (param : Int) (unit : Int) : Nat × CmsScreen × W :=
  match cs.cmsFunctions.find? (CmsFunction.matchesKey target alpha param unit) with
  | some f => (f.id, cs, w)
  | none =>
    let data := assembleProgram target alpha param unit
    if !env.status w data then
      (0, cs, w)
    else
      let created := env.createFragmentFunction w data "cms"
      let f : CmsFunction :=
        { id := created.1, alpha := alpha, target := target, param := param, unit := unit }
      (f.id, { cs with cmsFunctions := cs.cmsFunctions ++ [f] }, created.2)

/-- A host whose fragment storage is a counter of the next free function id:
every program assembles, and creation hands out the counter and advances it. -/
def counterEnv : FragmentEnv Nat :=
  { status := fun _ _ => true
    createFragmentFunction := fun n _ _ => (n, n + 1) }

/-- A host on which program assembly always fails. -/
def failingEnv : FragmentEnv Nat :=
  { status := fun _ _ => false
    createFragmentFunction := fun n _ _ => (n, n + 1) }

/-- A screen with an empty cache, LUT texture 7, decorations corrected and no
window excluded. -/
def sampleScreen : CmsScreen :=
  { lut := 7, cmsFunctions := [], optDecorations := true, optExcludeMatch := fun _ => false }

/-! ## The draw hook (`CmsWindow::updateMatch`, `CmsWindow::glDrawTexture`) -/

/-- The constant `const int GRIDSIZE = 64;`. -/
def GRIDSIZE : Nat := 64

/-- The GL enumerant `GL_TEXTURE_2D` (0x0DE1). -/
def GL_TEXTURE_2D : Nat := 0x0DE1

/-- The GL enumerant `GL_TEXTURE_RECTANGLE_ARB` (0x84F5). -/
def GL_TEXTURE_RECTANGLE_ARB : Nat := 0x84F5

/-- The fetch target `COMP_FETCH_TARGET_2D` of the opengl plugin. -/
def COMP_FETCH_TARGET_2D : Int := 0

/-- The fetch target `COMP_FETCH_TARGET_RECT` of the opengl plugin. -/
def COMP_FETCH_TARGET_RECT : Int := 1

/-- Conversion of an `unsigned int` result to the `int` variable it is stored
in (two-complement, 32 bits). -/
def toInt32 (n : Nat) : Int :=
  if n % 2 ^ 32 < 2 ^ 31 then ((n % 2 ^ 32 : Nat) : Int) else ((n % 2 ^ 32 : Nat) : Int) - 2 ^ 32

/-- A `GLTexture *`: the address of the object and what `texture->target ()`
returns for it. -/
structure GLTexture where
  ptr : Nat
  target : Nat
  deriving DecidableEq, Repr

/-- The operations of `GLFragment::Attrib` used by the draw hook, over any
representation `A` of the attribute set.  Each allocator returns the first
allocated index and the updated set. -/
structure AttribApi (A : Type) where
  allocParameters : A → Nat → Nat × A
  allocTextureUnits : A → Nat → Nat × A
  addFunction : A → Nat → A

/-- The attribute set of the opengl plugin: colour attributes, the number of
texture units and parameters in use, and the attached function handles. -/
structure Attrib where
  opacity : Nat
  brightness : Nat
  saturation : Nat
  nTexture : Nat
  functions : List Nat
  nParam : Nat
  deriving DecidableEq, Repr

/-- The counters of the opengl plugin: allocation returns the old count and
adds to it, `addFunction` appends while fewer than 16 functions are attached. -/
def compizAttrib : AttribApi Attrib :=
  { allocParameters := fun a n => (a.nParam, { a with nParam := a.nParam + n })
    allocTextureUnits := fun a n => (a.nTexture, { a with nTexture := a.nTexture + n })
    addFunction := fun a f =>
      if a.functions.length < 16 then { a with functions := a.functions ++ [f] } else a }

/-- The members of `CmsWindow` and of its `CompWindow`/`GLWindow` read by the
draw hook: the window id, `gWindow->textures ()`, `window->alpha ()`, the flag
`isCms`, and the number of `cWindow->addDamage ()` calls made so far. -/
structure CmsWindow where
  window : Nat
  textures : List GLTexture
  alpha : Bool
  isCms : Bool
  damage : Nat
  deriving DecidableEq, Repr

/-- Model of `CmsWindow::updateMatch ()`. -/
def updateMatch (cs : CmsScreen) (cw : CmsWindow) : CmsWindow :=
  { cw with isCms := !cs.optExcludeMatch cw.window, damage := cw.damage + 1 }

/-- GL state calls made by the correcting branch of the draw hook:
`GL::programEnvParameter4f (GL_FRAGMENT_PROGRAM_ARB, index, x, y, z, w)`,
`GL::activeTexture (GL_TEXTURE0_ARB + unit)` and
`glBindTexture (GL_TEXTURE_3D, name)`. -/
inductive GLCall where
  | programEnvParameter4f (index : Int) (x : ℚ) (y : ℚ) (z : ℚ) (w : ℚ)
  | activeTexture (unit : Int)
  | bindTexture3D (name : Nat)
  deriving DecidableEq

/-- What one run of the draw hook does: the screen and host state afterwards,
the GL state calls in order, and the arguments of the final
`gWindow->glDrawTexture (texture, attrib, mask)`. -/
structure DrawOutcome (W : Type) (A : Type) where
  screen : CmsScreen
  host : W
  calls : List GLCall
  drawTexture : GLTexture
  drawAttrib : A
  drawMask : Nat

/-- The loop of lines 278-286: the texture is a decoration unless it is one
of `gWindow->textures ()` (pointer comparison). -/
def isDecoration (cw : CmsWindow) (texture : GLTexture) : Bool :=
  !(cw.textures.any (fun tex => texture.ptr == tex.ptr))

/-- Line 288: `bool doCms = isDecoration ? cs->optionGetDecorations () : isCms;`. -/
def doCms (cs : CmsScreen) (cw : CmsWindow) (texture : GLTexture) : Bool :=
  if isDecoration cw texture then cs.optDecorations else cw.isCms

/-- Line 307: `GLfloat scale = (GLfloat) (GRIDSIZE - 1) / GRIDSIZE;`. -/
def scale : ℚ := (((GRIDSIZE : Int) - 1 : Int) : ℚ) / ((GRIDSIZE : Int) : ℚ)

/-- Line 308: `GLfloat offset = (GLfloat) 1.0 / (2 * GRIDSIZE);`. -/
def offset : ℚ := (1 : ℚ) / ((2 * (GRIDSIZE : Int) : Int) : ℚ)

/-- The `MAD output, output, program.env[param], program.env[param + 1];`
operation on one colour component, with the constants uploaded at lines
310-313: `x * scale + offset`. -/
def remap (x : ℚ) : ℚ := x * scale + offset

/-- Model of `CmsWindow::glDrawTexture (texture, attrib, mask)`.
`fragmentProgram` is the host flag `GL::fragmentProgram`. -/
def glDrawTexture {W A : Type} (env : FragmentEnv W) (api : AttribApi A)
    (fragmentProgram : Bool) (cs : CmsScreen) (w : W) (cw : CmsWindow)
    (texture : GLTexture) (attrib : A) (mask : Nat) : DrawOutcome W A :=
  if cs.lut != 0 && doCms cs cw texture && fragmentProgram then
    let fa := attrib
    let alpha := isDecoration cw texture || cw.alpha
    let target :=
      if texture.target == GL_TEXTURE_2D then COMP_FETCH_TARGET_2D else COMP_FETCH_TARGET_RECT
    let p := api.allocParameters fa 2
    let param := toInt32 p.1
    let u := api.allocTextureUnits p.2 1
    let unit := toInt32 u.1
    let r := getFragmentFunction env cs w target alpha param unit
    let fa := api.addFunction u.2 r.1
    { screen := r.2.1
      host := r.2.2
      calls :=
        [GLCall.programEnvParameter4f (param + 0) scale scale scale 1,
         GLCall.programEnvParameter4f (param + 1) offset offset offset 0,
         GLCall.activeTexture unit,
         GLCall.bindTexture3D r.2.1.lut,
         GLCall.activeTexture 0]
      drawTexture := texture
      drawAttrib := fa
      drawMask := mask }
  else
    { screen := cs, host := w, calls := [], drawTexture := texture, drawAttrib := attrib,
      drawMask := mask }

/-- An attribute set with nothing allocated. -/
def plainAttrib : Attrib :=
  { opacity := 65535, brightness := 65535, saturation := 65535, nTexture := 1, functions := [],
    nParam := 0 }

/-- A window (id 3) with one content texture at address 100, no alpha channel. -/
def sampleWindow : CmsWindow :=
  { window := 3, textures := [{ ptr := 100, target := GL_TEXTURE_2D }], alpha := false,
    isCms := true, damage := 0 }

/-- The content texture of `sampleWindow`. -/
def contentTexture : GLTexture := { ptr := 100, target := GL_TEXTURE_2D }

/-- A texture that is not a content texture of `sampleWindow`. -/
def decorTexture : GLTexture := { ptr := 200, target := GL_TEXTURE_RECTANGLE_ARB }

/-! ## The LUT builder (`CmsScreen::setupLUT`) -/

/-- The buffer `struct memlut { GLushort a[GRIDSIZE][GRIDSIZE][GRIDSIZE][3]; }`:
the flat array of its `GRIDSIZE * GRIDSIZE * GRIDSIZE * 3` 16-bit values, in
memory order. -/
structure memlut where
  a : Array Nat
  size_eq : a.size = GRIDSIZE * GRIDSIZE * GRIDSIZE * 3

/-- Position of `a[i][j][k][c]` in the flat array (row-major layout of a C
array). -/
def memlut.index (i j k c : Nat) : Nat := ((i * GRIDSIZE + j) * GRIDSIZE + k) * 3 + c

/-- The value read as `m->a[i][j][k][c]`. -/
def memlut.get (m : memlut) (i j k c : Nat) : Nat := m.a.getD (memlut.index i j k c) 0

/-- Conversion of an `int` to the `GLushort` it is stored as (reduction
modulo 2^16). -/
def toGLushort (v : Int) : Nat := (v % 65536).toNat

/-- The assignment `m->a[i][j][k][c] = v;`. -/
def memlut.set (m : memlut) (i j k c : Nat) (v : Int) : memlut :=
  { a := m.a.setD (memlut.index i j k c) (toGLushort v)
    size_eq := by rw [Array.size_setD]; exact m.size_eq }

/-- The right-hand side `((0xffff-1)*x)/GRIDSIZE` of lines 154-156, in `int`
arithmetic with truncating division. -/
def rampValue (x : Nat) : Int := Int.tdiv ((0xffff - 1) * (x : Int)) (GRIDSIZE : Int)

/-- The body of the innermost loop (lines 154-156). -/
def populateCell (r g b : Nat) (input : memlut) : memlut :=
  ((input.set b g r 0 (rampValue r)).set b g r 1 (rampValue g)).set b g r 2 (rampValue b)

/-- The loop `for (int b = 0; b < GRIDSIZE; b++)` of line 153. -/
def populateB (r g : Nat) (input : memlut) : memlut :=
  (List.range GRIDSIZE).foldl (fun m b => populateCell r g b m) input

/-- The loop `for (int g = 0; g < GRIDSIZE; g++)` of line 152. -/
def populateG (r : Nat) (input : memlut) : memlut :=
  (List.range GRIDSIZE).foldl (fun m g => populateB r g m) input

/-- The loop nest of lines 151-159 that fills the input grid. -/
def populate (input : memlut) : memlut :=
  (List.range GRIDSIZE).foldl (fun m r => populateG r m) input

/-- Symbolic GL enumerants passed by `setupLUT`. -/
inductive GLenum where
  | GL_TEXTURE_3D
  | GL_TEXTURE_WRAP_S
  | GL_TEXTURE_WRAP_T
  | GL_TEXTURE_WRAP_R
  | GL_TEXTURE_MAG_FILTER
  | GL_TEXTURE_MIN_FILTER
  | GL_CLAMP
  | GL_LINEAR
  | GL_RGB16
  | GL_RGB
  | GL_UNSIGNED_SHORT
  deriving DecidableEq, Repr

/-- The calls `setupLUT` makes into Xlib, lcms and GL, with the arguments that
vary. -/
inductive LutCall where
  | glDeleteTextures (name : Nat)
  | XGetWindowProperty
  | XFree
  | cmsOpenProfileFromMem (len : Nat)
  | cmsCreate_sRGBProfile
  | cmsCreateTransform (inputProfile : Nat) (outputProfile : Nat)
  | cmsDoTransform (transf : Nat) (input : memlut) (size : Nat)
  | cmsDeleteTransform (transf : Nat)
  | cmsCloseProfile (profile : Nat)
  | glGenTextures (name : Nat)
  | glBindTexture (target : GLenum) (name : Nat)
  | glTexParameteri (target : GLenum) (pname : GLenum) (value : GLenum)
  | glTexImage3D (target : GLenum) (level : Nat) (internalFormat : GLenum) (width : Nat)
      (height : Nat) (depth : Nat) (border : Nat) (format : GLenum) (type : GLenum)
      (pixels : memlut)

/-- Whether a call is a `glGenTextures`. -/
def LutCall.isGen : LutCall → Bool
  | LutCall.glGenTextures _ => true
  | _ => false

/-- Whether a call is a `glDeleteTextures`. -/
def LutCall.isDelete : LutCall → Bool
  | LutCall.glDeleteTextures _ => true
  | _ => false

/-- What `XGetWindowProperty` hands back for `_ICC_PROFILE` on the root
window: the return code (`Success` is 0), the item count and the bytes. -/
structure PropertyReply where
  res : Int
  len : Nat
  icc : List Nat

/-- The Xlib return code `Success`. -/
def Success : Int := 0

/-- The host side of `setupLUT`.  Profile and transform handles are pointers
(0 is `NULL`).  `outputInit` is the content of the freshly allocated output
buffer; `cmsDoTransform transf input output size` is the output buffer after the
call; `glGenTextures live` is the name GL hands out when `live` are in use. -/
structure LutEnv where
  XGetWindowProperty : PropertyReply
  cmsOpenProfileFromMem : List Nat → Nat → Nat
  cmsCreate_sRGBProfile : Nat
  cmsCreateTransform : Nat → Nat → Nat
  cmsDoTransform : Nat → memlut → memlut → Nat → memlut
  inputInit : memlut
  outputInit : memlut
  glGenTextures : List Nat → Nat

/-- What one run of `setupLUT` does: the screen afterwards, the texture names
live in the GL context afterwards, and the calls made, in order. -/
structure LutOutcome where
  screen : CmsScreen
  textures : List Nat
  calls : List LutCall

/-- Model of `CmsScreen::setupLUT ()`, run on screen `cs` in a GL context whose
live texture names are `textures`. -/
def setupLUT (env : LutEnv) (cs : CmsScreen) (textures : List Nat) : LutOutcome :=
  -- free existing lut
  let freed : CmsScreen × List Nat × List LutCall :=
    if cs.lut != 0 then
      ({ cs with lut := 0 }, textures.erase cs.lut, [LutCall.glDeleteTextures cs.lut])
    else (cs, textures, [])
  let cs1 := freed.1
  let tex1 := freed.2.1
  let t1 := freed.2.2 ++ [LutCall.XGetWindowProperty]
  -- fetch ICC profile
  let reply := env.XGetWindowProperty
  if reply.res != Success || reply.len == 0 then
    { screen := cs1, textures := tex1, calls := t1 ++ [LutCall.XFree] }
  else
    let outputProfile := env.cmsOpenProfileFromMem reply.icc reply.len
    let t2 := t1 ++ [LutCall.cmsOpenProfileFromMem reply.len]
    if outputProfile == 0 then
      { screen := cs1, textures := tex1, calls := t2 ++ [LutCall.XFree] }
    else
      -- populate sampling grid
      let input := populate env.inputInit
      -- transform
      let inputProfile := env.cmsCreate_sRGBProfile
      let transf := env.cmsCreateTransform inputProfile outputProfile
      let output := env.cmsDoTransform transf input env.outputInit (GRIDSIZE * GRIDSIZE * GRIDSIZE)
      -- save into a texture
      let name := env.glGenTextures tex1
      { screen := { cs1 with lut := name }
        textures := tex1 ++ [name]
        calls := t2 ++
          [LutCall.cmsCreate_sRGBProfile,
           LutCall.cmsCreateTransform inputProfile outputProfile,
           LutCall.cmsDoTransform transf input (GRIDSIZE * GRIDSIZE * GRIDSIZE),
           LutCall.cmsDeleteTransform transf,
           LutCall.cmsCloseProfile inputProfile,
           LutCall.cmsCloseProfile outputProfile,
           LutCall.XFree,
           LutCall.glGenTextures name,
           LutCall.glBindTexture GLenum.GL_TEXTURE_3D name,
           LutCall.glTexParameteri GLenum.GL_TEXTURE_3D GLenum.GL_TEXTURE_WRAP_S GLenum.GL_CLAMP,
           LutCall.glTexParameteri GLenum.GL_TEXTURE_3D GLenum.GL_TEXTURE_WRAP_T GLenum.GL_CLAMP,
           LutCall.glTexParameteri GLenum.GL_TEXTURE_3D GLenum.GL_TEXTURE_WRAP_R GLenum.GL_CLAMP,
           LutCall.glTexParameteri GLenum.GL_TEXTURE_3D GLenum.GL_TEXTURE_MAG_FILTER
             GLenum.GL_LINEAR,
           LutCall.glTexParameteri GLenum.GL_TEXTURE_3D GLenum.GL_TEXTURE_MIN_FILTER
             GLenum.GL_LINEAR,
           LutCall.glTexImage3D GLenum.GL_TEXTURE_3D 0 GLenum.GL_RGB16 GRIDSIZE GRIDSIZE GRIDSIZE
             0 GLenum.GL_RGB GLenum.GL_UNSIGNED_SHORT output] }

/-- A buffer holding zeros. -/
def zeroLut : memlut :=
  { a := mkArray (GRIDSIZE * GRIDSIZE * GRIDSIZE * 3) 0
    size_eq := Array.size_mkArray _ _ }

/-- The smallest positive name not in use. -/
def firstFreeName (live : List Nat) : Nat :=
  ((List.range (live.length + 1)).map (· + 1)).find? (fun n => !live.contains n) |>.getD
    (live.length + 1)

/-- A host with a profile on the root window that parses (handle 11) but for
which no transform can be built (`cmsCreateTransform` returns `NULL`); the
transform call leaves the output buffer as it was. -/
def noTransformEnv : LutEnv :=
  { XGetWindowProperty := { res := 0, len := 4, icc := [1, 2, 3, 4] }
    cmsOpenProfileFromMem := fun _ _ => 11
    cmsCreate_sRGBProfile := 12
    cmsCreateTransform := fun _ _ => 0
    cmsDoTransform := fun _ _ output _ => output
    inputInit := zeroLut
    outputInit := zeroLut
    glGenTextures := firstFreeName }

/-- A host with no `_ICC_PROFILE` property (zero items). -/
def noProfileEnv : LutEnv :=
  { noTransformEnv with XGetWindowProperty := { res := 0, len := 0, icc := [] } }

/-- Program creation hands out fresh handles: a creation never returns the
handle returned by the creation before it. -/
def FragmentEnv.FreshHandles {W : Type} (env : FragmentEnv W) : Prop :=
  ∀ (w : W) (d d2 : FunctionData) (n n2 : String),
    (env.createFragmentFunction (env.createFragmentFunction w d n).2 d2 n2).1 ≠
      (env.createFragmentFunction w d n).1

/-- The `int` value the loop body assigns to channel `c` of cell
`a[b][g][r]`: the ramp value of `r`, `g` or `b` for `c` equal to 0, 1 or 2. -/
def rampChannel (c r g b : Nat) : Int :=
  rampValue (if c = 0 then r else if c = 1 then g else b)

/-- Whether a call is a `cmsDoTransform` on the given transform handle. -/
def LutCall.isDoTransform (transf : Nat) : LutCall → Bool
  | LutCall.cmsDoTransform t _ _ => t == transf
  | _ => false

/-- The texture names live before a run of `setupLUT` other than the LUT of
the screen. -/
def baseline (cs : CmsScreen) (textures : List Nat) : List Nat :=
  if cs.lut = 0 then textures else textures.erase cs.lut

/-- The outcome of a draw that is delegated unmodified: nothing changes, no GL
state call is made, and the draw receives the arguments as they came in. -/
def passthrough {W A : Type} (cs : CmsScreen) (w : W) (texture : GLTexture) (attrib : A)
    (mask : Nat) : DrawOutcome W A :=
  { screen := cs, host := w, calls := [], drawTexture := texture, drawAttrib := attrib,
    drawMask := mask }

/-- A screen without LUT (`lut == 0`), decorations corrected, no window excluded. -/
def noLutScreen : CmsScreen :=
  { lut := 0, cmsFunctions := [], optDecorations := true, optExcludeMatch := fun _ => false }

/-- A screen with LUT texture 7 on which decorations are not corrected and
window 3 is excluded. -/
def strictScreen : CmsScreen :=
  { lut := 7, cmsFunctions := [], optDecorations := false, optExcludeMatch := fun n => n == 3 }

/-! # Properties

## The fragment-function cache -/

theorem matchesKey_self (id : Nat) (target : Int) (alpha : Bool) (param : Int) (unit : Int) :
    CmsFunction.matchesKey target alpha param unit
      { id := id, alpha := alpha, target := target, param := param, unit := unit } = true := by
  simp [CmsFunction.matchesKey]

theorem matchesKey_other_unit (id : Nat) (target : Int) (alpha : Bool) (param : Int)
    (unit unit2 : Int) (h : unit ≠ unit2) :
    CmsFunction.matchesKey target alpha param unit2
      { id := id, alpha := alpha, target := target, param := param, unit := unit } = false := by
  simp [CmsFunction.matchesKey, h]

theorem getFragmentFunction_hit {W : Type} (env : FragmentEnv W) (cs : CmsScreen) (w : W)
    (target : Int) (alpha : Bool) (param : Int) (unit : Int) (f : CmsFunction)
    (h : cs.cmsFunctions.find? (CmsFunction.matchesKey target alpha param unit) = some f) :
    getFragmentFunction env cs w target alpha param unit = (f.id, cs, w) := by
  simp [getFragmentFunction, h]

theorem getFragmentFunction_fail {W : Type} (env : FragmentEnv W) (cs : CmsScreen) (w : W)
    (target : Int) (alpha : Bool) (param : Int) (unit : Int)
    (h : cs.cmsFunctions.find? (CmsFunction.matchesKey target alpha param unit) = none)
    (hs : env.status w (assembleProgram target alpha param unit) = false) :
    getFragmentFunction env cs w target alpha param unit = (0, cs, w) := by
  simp [getFragmentFunction, h, hs]

theorem getFragmentFunction_create {W : Type} (env : FragmentEnv W) (cs : CmsScreen) (w : W)
    (target : Int) (alpha : Bool) (param : Int) (unit : Int)
    (h : cs.cmsFunctions.find? (CmsFunction.matchesKey target alpha param unit) = none)
    (hs : env.status w (assembleProgram target alpha param unit) = true) :
    getFragmentFunction env cs w target alpha param unit =
      ((env.createFragmentFunction w (assembleProgram target alpha param unit) "cms").1,
       { cs with cmsFunctions := cs.cmsFunctions ++
          [{ id := (env.createFragmentFunction w (assembleProgram target alpha param unit) "cms").1,
             alpha := alpha, target := target, param := param, unit := unit }] },
       (env.createFragmentFunction w (assembleProgram target alpha param unit) "cms").2) := by
  simp [getFragmentFunction, h, hs]

/-- C1: calling `getFragmentFunction` twice in a row with the same key returns
the same handle both times, and the second call leaves the screen (hence the
cache `cmsFunctions` and its length) and the host state unchanged. -/
theorem getFragmentFunction_twice {W : Type} (env : FragmentEnv W) (cs : CmsScreen) (w : W)
    (target : Int) (alpha : Bool) (param : Int) (unit : Int) :
    (getFragmentFunction env
        (getFragmentFunction env cs w target alpha param unit).2.1
        (getFragmentFunction env cs w target alpha param unit).2.2 target alpha param unit).1
      = (getFragmentFunction env cs w target alpha param unit).1 ∧
    (getFragmentFunction env
        (getFragmentFunction env cs w target alpha param unit).2.1
        (getFragmentFunction env cs w target alpha param unit).2.2 target alpha param unit).2
      = (getFragmentFunction env cs w target alpha param unit).2 ∧
    (getFragmentFunction env
        (getFragmentFunction env cs w target alpha param unit).2.1
        (getFragmentFunction env cs w target alpha param unit).2.2 target alpha param
        unit).2.1.cmsFunctions.length
      = (getFragmentFunction env cs w target alpha param unit).2.1.cmsFunctions.length := by
  cases h : cs.cmsFunctions.find? (CmsFunction.matchesKey target alpha param unit) with
  | some f =>
    rw [getFragmentFunction_hit env cs w target alpha param unit f h]
    simp only
    rw [getFragmentFunction_hit env cs w target alpha param unit f h]
    exact ⟨rfl, rfl, rfl⟩
  | none =>
    cases hs : env.status w (assembleProgram target alpha param unit) with
    | false =>
      rw [getFragmentFunction_fail env cs w target alpha param unit h hs]
      simp only
      rw [getFragmentFunction_fail env cs w target alpha param unit h hs]
      exact ⟨rfl, rfl, rfl⟩
    | true =>
      rw [getFragmentFunction_create env cs w target alpha param unit h hs]
      simp only
      rw [getFragmentFunction_hit env _ _ target alpha param unit
        { id := (env.createFragmentFunction w (assembleProgram target alpha param unit) "cms").1,
          alpha := alpha, target := target, param := param, unit := unit }
        (by simp [h, matchesKey_self])]
      exact ⟨rfl, rfl, rfl⟩

theorem find?_matchesKey_none (l : List CmsFunction) (target : Int) (alpha : Bool)
    (param : Int) (unit : Int)
    (h : ∀ f ∈ l, CmsFunction.matchesKey target alpha param unit f = false) :
    l.find? (CmsFunction.matchesKey target alpha param unit) = none := by
  rw [List.find?_eq_none]
  intro f hf
  simp [h f hf]

/-- C9: from a cache with no entry for either key, two successful calls whose
keys differ only in the texture unit append exactly two entries, one per key
in call order, each recording its own unit and the handle returned for it, and
the two returned handles are distinct when creation hands out fresh handles. -/
theorem getFragmentFunction_distinct_units {W : Type} (env : FragmentEnv W) (cs : CmsScreen)
    (w : W) (target : Int) (alpha : Bool) (param : Int) (unit1 unit2 : Int)
    (hne : unit1 ≠ unit2)
    (h1 : ∀ f ∈ cs.cmsFunctions, CmsFunction.matchesKey target alpha param unit1 f = false)
    (h2 : ∀ f ∈ cs.cmsFunctions, CmsFunction.matchesKey target alpha param unit2 f = false)
    (hfresh : env.FreshHandles)
    (hs1 : env.status w (assembleProgram target alpha param unit1) = true)
    (hs2 : env.status (getFragmentFunction env cs w target alpha param unit1).2.2
      (assembleProgram target alpha param unit2) = true) :
    (getFragmentFunction env
        (getFragmentFunction env cs w target alpha param unit1).2.1
        (getFragmentFunction env cs w target alpha param unit1).2.2
        target alpha param unit2).2.1.cmsFunctions
      = cs.cmsFunctions ++
          [{ id := (getFragmentFunction env cs w target alpha param unit1).1,
             alpha := alpha, target := target, param := param, unit := unit1 },
           { id := (getFragmentFunction env
                (getFragmentFunction env cs w target alpha param unit1).2.1
                (getFragmentFunction env cs w target alpha param unit1).2.2
                target alpha param unit2).1,
             alpha := alpha, target := target, param := param, unit := unit2 }] ∧
    (getFragmentFunction env
        (getFragmentFunction env cs w target alpha param unit1).2.1
        (getFragmentFunction env cs w target alpha param unit1).2.2
        target alpha param unit2).2.1.cmsFunctions.length = cs.cmsFunctions.length + 2 ∧
    (getFragmentFunction env cs w target alpha param unit1).1 ≠
      (getFragmentFunction env
        (getFragmentFunction env cs w target alpha param unit1).2.1
        (getFragmentFunction env cs w target alpha param unit1).2.2
        target alpha param unit2).1 := by
  have e1 := getFragmentFunction_create env cs w target alpha param unit1
    (find?_matchesKey_none _ _ _ _ _ h1) hs1
  rw [e1] at hs2 ⊢
  simp only at hs2 ⊢
  have hmiss : ∀ f ∈ cs.cmsFunctions ++
      [{ id := (env.createFragmentFunction w (assembleProgram target alpha param unit1) "cms").1,
         alpha := alpha, target := target, param := param, unit := unit1 }],
      CmsFunction.matchesKey target alpha param unit2 f = false := by
    intro f hf
    rcases List.mem_append.mp hf with hf | hf
    · exact h2 f hf
    · rw [List.mem_singleton.mp hf]
      exact matchesKey_other_unit _ _ _ _ _ _ hne
  have e2 := getFragmentFunction_create env
    { cs with cmsFunctions := cs.cmsFunctions ++
      [{ id := (env.createFragmentFunction w (assembleProgram target alpha param unit1) "cms").1,
         alpha := alpha, target := target, param := param, unit := unit1 }] }
    (env.createFragmentFunction w (assembleProgram target alpha param unit1) "cms").2
    target alpha param unit2 (find?_matchesKey_none _ _ _ _ _ hmiss) hs2
  rw [e2]
  refine ⟨by simp, by simp, ?_⟩
  exact (hfresh w _ _ _ _).symm

theorem counterEnv_fresh : counterEnv.FreshHandles := by
  intro w d d2 n n2
  simp [counterEnv]

/-- C9 witness: on the counter host, starting from the empty cache with next
id 1, the calls for units 1 and 2 return handles 1 and 2 and leave two entries. -/
theorem getFragmentFunction_distinct_units_witness :
    (getFragmentFunction counterEnv
        (getFragmentFunction counterEnv sampleScreen 1 0 true 0 1).2.1
        (getFragmentFunction counterEnv sampleScreen 1 0 true 0 1).2.2
        0 true 0 2).2.1.cmsFunctions
      = sampleScreen.cmsFunctions ++
          [{ id := (getFragmentFunction counterEnv sampleScreen 1 0 true 0 1).1,
             alpha := true, target := 0, param := 0, unit := 1 },
           { id := (getFragmentFunction counterEnv
                (getFragmentFunction counterEnv sampleScreen 1 0 true 0 1).2.1
                (getFragmentFunction counterEnv sampleScreen 1 0 true 0 1).2.2
                0 true 0 2).1,
             alpha := true, target := 0, param := 0, unit := 2 }] ∧
    (getFragmentFunction counterEnv
        (getFragmentFunction counterEnv sampleScreen 1 0 true 0 1).2.1
        (getFragmentFunction counterEnv sampleScreen 1 0 true 0 1).2.2
        0 true 0 2).2.1.cmsFunctions.length = sampleScreen.cmsFunctions.length + 2 ∧
    (getFragmentFunction counterEnv sampleScreen 1 0 true 0 1).1 ≠
      (getFragmentFunction counterEnv
        (getFragmentFunction counterEnv sampleScreen 1 0 true 0 1).2.1
        (getFragmentFunction counterEnv sampleScreen 1 0 true 0 1).2.2
        0 true 0 2).1 :=
  getFragmentFunction_distinct_units counterEnv sampleScreen 1 0 true 0 1 2 (by decide)
    (by simp [sampleScreen]) (by simp [sampleScreen]) counterEnv_fresh rfl rfl

/-! ## The draw hook -/

theorem glDrawTexture_else {W A : Type} (env : FragmentEnv W) (api : AttribApi A)
    (fragmentProgram : Bool) (cs : CmsScreen) (w : W) (cw : CmsWindow) (texture : GLTexture)
    (attrib : A) (mask : Nat)
    (h : (cs.lut != 0 && doCms cs cw texture && fragmentProgram) = false) :
    glDrawTexture env api fragmentProgram cs w cw texture attrib mask =
      passthrough cs w texture attrib mask := by
  simp only [glDrawTexture, h, passthrough]
  rfl

theorem glDrawTexture_then_calls {W A : Type} (env : FragmentEnv W) (api : AttribApi A)
    (fragmentProgram : Bool) (cs : CmsScreen) (w : W) (cw : CmsWindow) (texture : GLTexture)
    (attrib : A) (mask : Nat)
    (h : (cs.lut != 0 && doCms cs cw texture && fragmentProgram) = true) :
    (glDrawTexture env api fragmentProgram cs w cw texture attrib mask).calls ≠ [] := by
  simp only [glDrawTexture, h]
  simp

theorem isDecoration_eq_true_iff (cw : CmsWindow) (texture : GLTexture) :
    isDecoration cw texture = true ↔ ∀ tex ∈ cw.textures, texture.ptr ≠ tex.ptr := by
  simp [isDecoration]

/-- C3: when the LUT is absent (`cs->lut == 0`) the draw hook delegates
unmodified: the downstream draw receives exactly the texture, attribute set
and mask that came in, no GL state call is made, and the screen (with its
program cache) and the host state are unchanged. -/
theorem glDrawTexture_no_lut {W A : Type} (env : FragmentEnv W) (api : AttribApi A)
    (fragmentProgram : Bool) (cs : CmsScreen) (w : W) (cw : CmsWindow) (texture : GLTexture)
    (attrib : A) (mask : Nat) (h : cs.lut = 0) :
    glDrawTexture env api fragmentProgram cs w cw texture attrib mask =
      { screen := cs, host := w, calls := [], drawTexture := texture, drawAttrib := attrib,
        drawMask := mask } := by
  have hc : (cs.lut != 0 && doCms cs cw texture && fragmentProgram) = false := by simp [h]
  exact glDrawTexture_else env api fragmentProgram cs w cw texture attrib mask hc

/-- C3 witness: a decoration draw on a screen without LUT, on a host that
supports fragment programs. -/
theorem glDrawTexture_no_lut_witness :
    noLutScreen.lut = 0 ∧
    glDrawTexture counterEnv compizAttrib true noLutScreen 1 sampleWindow decorTexture
        plainAttrib 5 =
      { screen := noLutScreen, host := 1, calls := [], drawTexture := decorTexture,
        drawAttrib := plainAttrib, drawMask := 5 } :=
  ⟨rfl, glDrawTexture_no_lut counterEnv compizAttrib true noLutScreen 1 sampleWindow decorTexture
    plainAttrib 5 rfl⟩

/-- C4: the draw hook makes the GL calls of the colour-correcting branch if
and only if the LUT is present, fragment programs are supported and the draw
is eligible, and otherwise delegates unmodified; eligibility is the
decorations option for a texture that is none of the window textures and the
flag `isCms` otherwise, and `updateMatch` sets `isCms` to the negation of the
exclude match.  Hence a decoration texture with the option off is delegated
unmodified whatever the LUT, and so is a content texture of a window that
matches the exclude filter once `updateMatch` has run. -/
theorem glDrawTexture_corrects_iff {W A : Type} (env : FragmentEnv W) (api : AttribApi A)
    (fragmentProgram : Bool) (cs : CmsScreen) (w : W) (cw : CmsWindow) (texture : GLTexture)
    (attrib : A) (mask : Nat) :
    ((glDrawTexture env api fragmentProgram cs w cw texture attrib mask).calls ≠ [] ↔
      (cs.lut ≠ 0 ∧ fragmentProgram = true ∧ doCms cs cw texture = true)) ∧
    (¬ (cs.lut ≠ 0 ∧ fragmentProgram = true ∧ doCms cs cw texture = true) →
      glDrawTexture env api fragmentProgram cs w cw texture attrib mask =
        passthrough cs w texture attrib mask) ∧
    ((∀ tex ∈ cw.textures, texture.ptr ≠ tex.ptr) →
      doCms cs cw texture = cs.optDecorations) ∧
    ((∃ tex ∈ cw.textures, texture.ptr = tex.ptr) → doCms cs cw texture = cw.isCms) ∧
    (updateMatch cs cw).isCms = (!cs.optExcludeMatch cw.window) ∧
    ((∀ tex ∈ cw.textures, texture.ptr ≠ tex.ptr) → cs.optDecorations = false →
      glDrawTexture env api fragmentProgram cs w cw texture attrib mask =
        passthrough cs w texture attrib mask) ∧
    ((∃ tex ∈ cw.textures, texture.ptr = tex.ptr) → cs.optExcludeMatch cw.window = true →
      glDrawTexture env api fragmentProgram cs w (updateMatch cs cw) texture attrib mask =
        passthrough cs w texture attrib mask) := by
  have hdec : (∀ tex ∈ cw.textures, texture.ptr ≠ tex.ptr) →
      doCms cs cw texture = cs.optDecorations := by
    intro h
    simp [doCms, (isDecoration_eq_true_iff cw texture).mpr h]
  have hcont : ∀ cw2 : CmsWindow, (∃ tex ∈ cw2.textures, texture.ptr = tex.ptr) →
      doCms cs cw2 texture = cw2.isCms := by
    intro cw2 h
    have hnd : isDecoration cw2 texture = false := by
      cases hd : isDecoration cw2 texture with
      | false => rfl
      | true =>
        obtain ⟨tex, hmem, heq⟩ := h
        exact absurd heq ((isDecoration_eq_true_iff cw2 texture).mp hd tex hmem)
    simp [doCms, hnd]
  have hpass : ∀ cw2 : CmsWindow,
      ¬ (cs.lut ≠ 0 ∧ fragmentProgram = true ∧ doCms cs cw2 texture = true) →
      glDrawTexture env api fragmentProgram cs w cw2 texture attrib mask =
        passthrough cs w texture attrib mask := by
    intro cw2 h
    apply glDrawTexture_else
    cases hc : (cs.lut != 0 && doCms cs cw2 texture && fragmentProgram) with
    | false => rfl
    | true =>
      exfalso
      apply h
      simp only [Bool.and_eq_true, bne_iff_ne] at hc
      exact ⟨hc.1.1, hc.2, hc.1.2⟩
  refine ⟨⟨?_, ?_⟩, hpass cw, hdec, hcont cw, rfl, ?_, ?_⟩
  · intro hcalls
    by_contra hn
    rw [hpass cw hn] at hcalls
    exact hcalls rfl
  · rintro ⟨h1, h2, h3⟩
    apply glDrawTexture_then_calls
    simp [h1, h2, h3]
  · intro h hopt
    apply hpass cw
    rintro ⟨-, -, h3⟩
    rw [hdec h, hopt] at h3
    exact Bool.noConfusion h3
  · intro h hex
    apply hpass (updateMatch cs cw)
    rintro ⟨-, -, h3⟩
    rw [hcont (updateMatch cs cw) h] at h3
    simp [updateMatch, hex] at h3

/-- C4 witness: on a screen with a LUT where decorations are not corrected and
window 3 is excluded, neither the decoration texture nor the content texture
of window 3 is corrected. -/
theorem glDrawTexture_corrects_iff_witness :
    glDrawTexture counterEnv compizAttrib true strictScreen 1 sampleWindow decorTexture
        plainAttrib 0 = passthrough strictScreen 1 decorTexture plainAttrib 0 ∧
    glDrawTexture counterEnv compizAttrib true strictScreen 1
        (updateMatch strictScreen sampleWindow) contentTexture plainAttrib 0 =
      passthrough strictScreen 1 contentTexture plainAttrib 0 :=
  ⟨(glDrawTexture_corrects_iff counterEnv compizAttrib true strictScreen 1 sampleWindow
      decorTexture plainAttrib 0).2.2.2.2.2.1 (by decide) rfl,
   (glDrawTexture_corrects_iff counterEnv compizAttrib true strictScreen 1 sampleWindow
      contentTexture plainAttrib 0).2.2.2.2.2.2 (by decide) rfl⟩

/-- C2: on a host where program assembly fails, `getFragmentFunction` returns
the invalid handle 0 and the cache stays empty, yet the draw hook does not fall
back: the attribute set it passes downstream has two parameter slots and one
texture unit allocated and the handle 0 attached, and the LUT is bound. -/
theorem glDrawTexture_failed_program_not_passthrough :
    (getFragmentFunction failingEnv sampleScreen 1 COMP_FETCH_TARGET_2D false 0 1).1 = 0 ∧
    (glDrawTexture failingEnv compizAttrib true sampleScreen 1 sampleWindow contentTexture
        plainAttrib 0).screen.cmsFunctions = [] ∧
    (glDrawTexture failingEnv compizAttrib true sampleScreen 1 sampleWindow contentTexture
        plainAttrib 0).drawAttrib =
      { plainAttrib with nParam := 2, nTexture := 2, functions := [0] } ∧
    (glDrawTexture failingEnv compizAttrib true sampleScreen 1 sampleWindow contentTexture
        plainAttrib 0).drawAttrib ≠ plainAttrib ∧
    GLCall.bindTexture3D 7 ∈
      (glDrawTexture failingEnv compizAttrib true sampleScreen 1 sampleWindow contentTexture
        plainAttrib 0).calls := by
  refine ⟨rfl, rfl, rfl, by decide, ?_⟩
  simp [glDrawTexture, sampleScreen, doCms, isDecoration, sampleWindow, contentTexture,
    getFragmentFunction, failingEnv]

/-! ## The input ramp -/

theorem getD_setD (a : Array Nat) (i j v : Nat) :
    (a.setD i v).getD j 0 = if i = j ∧ i < a.size then v else a.getD j 0 := by
  by_cases hi : i < a.size
  · by_cases hij : i = j
    · subst hij
      simp [hi]
    · simp [Array.setD, hi, hij]
  · simp [Array.setD, hi]

theorem memlut.get_set (m : memlut) (i j k c : Nat) (v : Int) (i2 j2 k2 c2 : Nat) :
    (m.set i j k c v).get i2 j2 k2 c2 =
      if memlut.index i j k c = memlut.index i2 j2 k2 c2 ∧
          memlut.index i j k c < GRIDSIZE * GRIDSIZE * GRIDSIZE * 3
      then toGLushort v else m.get i2 j2 k2 c2 := by
  simp only [memlut.get, memlut.set, getD_setD, m.size_eq]

theorem memlut.index_lt (i j k c : Nat) (hi : i < GRIDSIZE) (hj : j < GRIDSIZE)
    (hk : k < GRIDSIZE) (hc : c < 3) :
    memlut.index i j k c < GRIDSIZE * GRIDSIZE * GRIDSIZE * 3 := by
  simp only [memlut.index, GRIDSIZE] at *
  omega

theorem memlut.index_inj (i j k c i2 j2 k2 c2 : Nat) (hj : j < GRIDSIZE) (hk : k < GRIDSIZE)
    (hc : c < 3) (hj2 : j2 < GRIDSIZE) (hk2 : k2 < GRIDSIZE) (hc2 : c2 < 3) :
    memlut.index i j k c = memlut.index i2 j2 k2 c2 ↔ i = i2 ∧ j = j2 ∧ k = k2 ∧ c = c2 := by
  simp only [memlut.index, GRIDSIZE] at *
  omega

theorem memlut.get_set_inrange (m : memlut) (i j k c : Nat) (v : Int) (i2 j2 k2 c2 : Nat)
    (hi : i < GRIDSIZE) (hj : j < GRIDSIZE) (hk : k < GRIDSIZE) (hc : c < 3)
    (hj2 : j2 < GRIDSIZE) (hk2 : k2 < GRIDSIZE) (hc2 : c2 < 3) :
    (m.set i j k c v).get i2 j2 k2 c2 =
      if i = i2 ∧ j = j2 ∧ k = k2 ∧ c = c2 then toGLushort v else m.get i2 j2 k2 c2 := by
  rw [memlut.get_set]
  have h1 := memlut.index_lt i j k c hi hj hk hc
  have h2 := memlut.index_inj i j k c i2 j2 k2 c2 hj hk hc hj2 hk2 hc2
  by_cases h : i = i2 ∧ j = j2 ∧ k = k2 ∧ c = c2
  · rw [if_pos ⟨h2.mpr h, h1⟩, if_pos h]
  · rw [if_neg (fun hh => h (h2.mp hh.1)), if_neg h]

theorem populateCell_get (m : memlut) (r g b i j k c : Nat) (hr : r < GRIDSIZE)
    (hg : g < GRIDSIZE) (hb : b < GRIDSIZE) (hj : j < GRIDSIZE) (hk : k < GRIDSIZE)
    (hc : c < 3) :
    (populateCell r g b m).get i j k c =
      if i = b ∧ j = g ∧ k = r then toGLushort (rampChannel c r g b) else m.get i j k c := by
  unfold populateCell
  rw [memlut.get_set_inrange _ b g r 2 _ i j k c hb hg hr (by omega) hj hk hc,
    memlut.get_set_inrange _ b g r 1 _ i j k c hb hg hr (by omega) hj hk hc,
    memlut.get_set_inrange _ b g r 0 _ i j k c hb hg hr (by omega) hj hk hc]
  by_cases h : i = b ∧ j = g ∧ k = r
  · obtain ⟨h1, h2, h3⟩ := h
    subst h1 h2 h3
    have hc3 : c = 0 ∨ c = 1 ∨ c = 2 := by omega
    rcases hc3 with h0 | h0 | h0 <;> subst h0 <;> simp [rampChannel]
  · rw [if_neg h, if_neg (fun hh => h ⟨hh.1.symm, hh.2.1.symm, hh.2.2.1.symm⟩),
      if_neg (fun hh => h ⟨hh.1.symm, hh.2.1.symm, hh.2.2.1.symm⟩),
      if_neg (fun hh => h ⟨hh.1.symm, hh.2.1.symm, hh.2.2.1.symm⟩)]

theorem populateB_get (m : memlut) (r g : Nat) (hr : r < GRIDSIZE) (hg : g < GRIDSIZE)
    (n : Nat) (hn : n ≤ GRIDSIZE) (i j k c : Nat) (hj : j < GRIDSIZE) (hk : k < GRIDSIZE)
    (hc : c < 3) :
    ((List.range n).foldl (fun m b => populateCell r g b m) m).get i j k c =
      if i < n ∧ j = g ∧ k = r then toGLushort (rampChannel c r g i) else m.get i j k c := by
  induction n with
  | zero => simp
  | succ n ih =>
    rw [List.range_succ, List.foldl_append, List.foldl_cons, List.foldl_nil,
      populateCell_get _ r g n i j k c hr hg (by omega) hj hk hc, ih (by omega)]
    by_cases h : i = n ∧ j = g ∧ k = r
    · rw [if_pos h, if_pos ⟨by omega, h.2.1, h.2.2⟩, h.1]
    · rw [if_neg h]
      by_cases h2 : i < n ∧ j = g ∧ k = r
      · rw [if_pos h2, if_pos ⟨by omega, h2.2.1, h2.2.2⟩]
      · rw [if_neg h2, if_neg]
        rintro ⟨h3, h4, h5⟩
        by_cases h6 : i = n
        · exact h ⟨h6, h4, h5⟩
        · exact h2 ⟨by omega, h4, h5⟩

theorem populateB_full (m : memlut) (r g : Nat) (hr : r < GRIDSIZE) (hg : g < GRIDSIZE)
    (i j k c : Nat) (hj : j < GRIDSIZE) (hk : k < GRIDSIZE) (hc : c < 3) :
    (populateB r g m).get i j k c =
      if i < GRIDSIZE ∧ j = g ∧ k = r then toGLushort (rampChannel c r g i)
      else m.get i j k c :=
  populateB_get m r g hr hg GRIDSIZE (Nat.le_refl _) i j k c hj hk hc

theorem populateG_get (m : memlut) (r : Nat) (hr : r < GRIDSIZE)
    (n : Nat) (hn : n ≤ GRIDSIZE) (i j k c : Nat) (hi : i < GRIDSIZE) (hj : j < GRIDSIZE)
    (hk : k < GRIDSIZE) (hc : c < 3) :
    ((List.range n).foldl (fun m g => populateB r g m) m).get i j k c =
      if j < n ∧ k = r then toGLushort (rampChannel c r j i) else m.get i j k c := by
  induction n with
  | zero => simp
  | succ n ih =>
    rw [List.range_succ, List.foldl_append, List.foldl_cons, List.foldl_nil]
    rw [populateB_full _ r n hr (by omega) i j k c hj hk hc, ih (by omega)]
    by_cases h : j = n ∧ k = r
    · rw [if_pos ⟨hi, h⟩, if_pos ⟨by omega, h.2⟩, h.1]
    · rw [if_neg (fun hh => h hh.2)]
      by_cases h2 : j < n ∧ k = r
      · rw [if_pos h2, if_pos ⟨by omega, h2.2⟩]
      · rw [if_neg h2, if_neg]
        rintro ⟨h3, h4⟩
        by_cases h6 : j = n
        · exact h ⟨h6, h4⟩
        · exact h2 ⟨by omega, h4⟩

theorem populateG_full (m : memlut) (r : Nat) (hr : r < GRIDSIZE) (i j k c : Nat)
    (hi : i < GRIDSIZE) (hj : j < GRIDSIZE) (hk : k < GRIDSIZE) (hc : c < 3) :
    (populateG r m).get i j k c =
      if j < GRIDSIZE ∧ k = r then toGLushort (rampChannel c r j i) else m.get i j k c :=
  populateG_get m r hr GRIDSIZE (Nat.le_refl _) i j k c hi hj hk hc

theorem populateR_get (m : memlut) (n : Nat) (hn : n ≤ GRIDSIZE) (i j k c : Nat)
    (hi : i < GRIDSIZE) (hj : j < GRIDSIZE) (hk : k < GRIDSIZE) (hc : c < 3) :
    ((List.range n).foldl (fun m r => populateG r m) m).get i j k c =
      if k < n then toGLushort (rampChannel c k j i) else m.get i j k c := by
  induction n with
  | zero => simp
  | succ n ih =>
    rw [List.range_succ, List.foldl_append, List.foldl_cons, List.foldl_nil]
    rw [populateG_full _ n (by omega) i j k c hi hj hk hc, ih (by omega)]
    by_cases h : k = n
    · rw [if_pos ⟨hj, h⟩, if_pos (by omega), h]
    · rw [if_neg (fun hh => h hh.2)]
      by_cases h2 : k < n
      · rw [if_pos h2, if_pos (by omega)]
      · rw [if_neg h2, if_neg (by omega)]

theorem populate_get (m : memlut) (b g r c : Nat) (hb : b < GRIDSIZE) (hg : g < GRIDSIZE)
    (hr : r < GRIDSIZE) (hc : c < 3) :
    (populate m).get b g r c = toGLushort (rampChannel c r g b) := by
  unfold populate
  rw [populateR_get m GRIDSIZE (Nat.le_refl _) b g r c hb hg hr hc, if_pos hr]

theorem rampValue_eq (x : Nat) (hx : x < GRIDSIZE) :
    rampValue x = (((65535 - 1) * x / 64 : Nat) : Int) := by
  simp only [GRIDSIZE] at hx
  unfold rampValue
  rw [Int.tdiv_eq_ediv (by omega) (by simp [GRIDSIZE])]
  simp only [GRIDSIZE]
  norm_num

theorem toGLushort_rampValue (x : Nat) (hx : x < GRIDSIZE) :
    toGLushort (rampValue x) = (65535 - 1) * x / 64 := by
  rw [rampValue_eq x hx]
  simp only [GRIDSIZE] at hx
  unfold toGLushort
  have e : (((65535 - 1) * x / 64 : Nat) : Int) % 65536 = (((65535 - 1) * x / 64 : Nat) : Int) := by
    omega
  rw [e]
  exact Int.toNat_ofNat _

/-- C8: for all grid indices `r`, `g`, `b` below 64, whatever the buffer held
before, the loop nest of `setupLUT` leaves in `input->a[b][g][r]` the triple
`(((65535-1)*r)/64, ((65535-1)*g)/64, ((65535-1)*b)/64)`: channel 0 depends
only on the innermost index `r`, channel 1 only on `g`, channel 2 only on the
outermost index `b`; each stored 16-bit value equals the `int` value that was
assigned (nothing is lost in the conversion) and is below 65536. -/
theorem populate_input_grid (m : memlut) (r g b : Nat) (hr : r < 64) (hg : g < 64)
    (hb : b < 64) :
    ((populate m).get b g r 0 = (65535 - 1) * r / 64 ∧
     (populate m).get b g r 1 = (65535 - 1) * g / 64 ∧
     (populate m).get b g r 2 = (65535 - 1) * b / 64) ∧
    ((((populate m).get b g r 0 : Nat) : Int) = rampValue r ∧
     (((populate m).get b g r 1 : Nat) : Int) = rampValue g ∧
     (((populate m).get b g r 2 : Nat) : Int) = rampValue b) ∧
    ((populate m).get b g r 0 < 65536 ∧ (populate m).get b g r 1 < 65536 ∧
     (populate m).get b g r 2 < 65536) := by
  have e0 : (populate m).get b g r 0 = (65535 - 1) * r / 64 := by
    rw [populate_get m b g r 0 hb hg hr (by omega)]
    exact toGLushort_rampValue r hr
  have e1 : (populate m).get b g r 1 = (65535 - 1) * g / 64 := by
    rw [populate_get m b g r 1 hb hg hr (by omega)]
    exact toGLushort_rampValue g hg
  have e2 : (populate m).get b g r 2 = (65535 - 1) * b / 64 := by
    rw [populate_get m b g r 2 hb hg hr (by omega)]
    exact toGLushort_rampValue b hb
  refine ⟨⟨e0, e1, e2⟩, ⟨?_, ?_, ?_⟩, ⟨?_, ?_, ?_⟩⟩
  · rw [e0, rampValue_eq r hr]
  · rw [e1, rampValue_eq g hg]
  · rw [e2, rampValue_eq b hb]
  · rw [e0]; omega
  · rw [e1]; omega
  · rw [e2]; omega

/-- C8 witness: the cell `a[5][7][9]` of a populated grid. -/
theorem populate_input_grid_witness :
    ((populate zeroLut).get 5 7 9 0 = (65535 - 1) * 9 / 64 ∧
     (populate zeroLut).get 5 7 9 1 = (65535 - 1) * 7 / 64 ∧
     (populate zeroLut).get 5 7 9 2 = (65535 - 1) * 5 / 64) ∧
    ((((populate zeroLut).get 5 7 9 0 : Nat) : Int) = rampValue 9 ∧
     (((populate zeroLut).get 5 7 9 1 : Nat) : Int) = rampValue 7 ∧
     (((populate zeroLut).get 5 7 9 2 : Nat) : Int) = rampValue 5) ∧
    ((populate zeroLut).get 5 7 9 0 < 65536 ∧ (populate zeroLut).get 5 7 9 1 < 65536 ∧
     (populate zeroLut).get 5 7 9 2 < 65536) :=
  populate_input_grid zeroLut 9 7 5 (by decide) (by decide) (by decide)

/-- C7 (as amended): each axis of the input ramp sweeps from 0 at grid index 0
up to `(65535-1)*63/64 = 64510` at grid index 63, and the values are
non-decreasing in the index. -/
theorem populate_ramp_sweep (m : memlut) (r g b : Nat) (hr : r < 64) (hg : g < 64)
    (hb : b < 64) :
    ((populate m).get b g 0 0 = 0 ∧ (populate m).get b 0 r 1 = 0 ∧
     (populate m).get 0 g r 2 = 0) ∧
    ((populate m).get b g 63 0 = 64510 ∧ (populate m).get b 63 r 1 = 64510 ∧
     (populate m).get 63 g r 2 = 64510) ∧
    (∀ r2, r ≤ r2 → r2 < 64 → (populate m).get b g r 0 ≤ (populate m).get b g r2 0) ∧
    (∀ g2, g ≤ g2 → g2 < 64 → (populate m).get b g r 1 ≤ (populate m).get b g2 r 1) ∧
    (∀ b2, b ≤ b2 → b2 < 64 → (populate m).get b g r 2 ≤ (populate m).get b2 g r 2) := by
  have e0 : ∀ x y z, x < 64 → y < 64 → z < 64 →
      (populate m).get x y z 0 = (65535 - 1) * z / 64 := by
    intro x y z hx hy hz
    rw [populate_get m x y z 0 hx hy hz (by omega)]
    exact toGLushort_rampValue z hz
  have e1 : ∀ x y z, x < 64 → y < 64 → z < 64 →
      (populate m).get x y z 1 = (65535 - 1) * y / 64 := by
    intro x y z hx hy hz
    rw [populate_get m x y z 1 hx hy hz (by omega)]
    exact toGLushort_rampValue y hy
  have e2 : ∀ x y z, x < 64 → y < 64 → z < 64 →
      (populate m).get x y z 2 = (65535 - 1) * x / 64 := by
    intro x y z hx hy hz
    rw [populate_get m x y z 2 hx hy hz (by omega)]
    exact toGLushort_rampValue x hx
  refine ⟨⟨?_, ?_, ?_⟩, ⟨?_, ?_, ?_⟩, ?_, ?_, ?_⟩
  · rw [e0 b g 0 hb hg (by omega)]
  · rw [e1 b 0 r hb (by omega) hr]
  · rw [e2 0 g r (by omega) hg hr]
  · rw [e0 b g 63 hb hg (by omega)]
  · rw [e1 b 63 r hb (by omega) hr]
  · rw [e2 63 g r (by omega) hg hr]
  · intro r2 h1 h2
    rw [e0 b g r hb hg hr, e0 b g r2 hb hg h2]
    omega
  · intro g2 h1 h2
    rw [e1 b g r hb hg hr, e1 b g2 r hb h2 hr]
    omega
  · intro b2 h1 h2
    rw [e2 b g r hb hg hr, e2 b2 g r h2 hg hr]
    omega

/-- C7 witness (amended claim) at the cell `a[5][7][9]`. -/
theorem populate_ramp_sweep_witness :
    ((populate zeroLut).get 5 7 0 0 = 0 ∧ (populate zeroLut).get 5 0 9 1 = 0 ∧
     (populate zeroLut).get 0 7 9 2 = 0) ∧
    ((populate zeroLut).get 5 7 63 0 = 64510 ∧ (populate zeroLut).get 5 63 9 1 = 64510 ∧
     (populate zeroLut).get 63 7 9 2 = 64510) ∧
    (∀ r2, 9 ≤ r2 → r2 < 64 →
      (populate zeroLut).get 5 7 9 0 ≤ (populate zeroLut).get 5 7 r2 0) ∧
    (∀ g2, 7 ≤ g2 → g2 < 64 →
      (populate zeroLut).get 5 7 9 1 ≤ (populate zeroLut).get 5 g2 9 1) ∧
    (∀ b2, 5 ≤ b2 → b2 < 64 →
      (populate zeroLut).get 5 7 9 2 ≤ (populate zeroLut).get b2 7 9 2) :=
  populate_ramp_sweep zeroLut 9 7 5 (by decide) (by decide) (by decide)

/-- C7 counterexample: in a populated grid the red value at the last grid
index 63 is 64510, which is not `65535*63/64 = 64511`. -/
theorem populate_ramp_last_ne :
    (populate zeroLut).get 0 0 63 0 = 64510 ∧ 65535 * 63 / 64 = 64511 ∧
    (populate zeroLut).get 0 0 63 0 ≠ 65535 * 63 / 64 := by
  have e : (populate zeroLut).get 0 0 63 0 = 64510 := by
    rw [populate_get zeroLut 0 0 63 0 (by decide) (by decide) (by decide) (by decide)]
    exact toGLushort_rampValue 63 (by decide)
  refine ⟨e, by decide, ?_⟩
  rw [e]
  decide

/-! ## The remap constants -/

/-- C10: in exact rational arithmetic the constants of the draw hook are
`scale = (N-1)/N = 63/64` and `offset = 1/(2N) = 1/128` for `N = GRIDSIZE = 64`;
the remap `x * scale + offset` sends the input `i/(N-1)` of every grid index
`i` in `0..N-1` to the texel centre `(2i+1)/(2N)`, and every input in `[0,1]`
to a coordinate in `[1/(2N), 1 - 1/(2N)]`, strictly inside `(0,1)`. -/
theorem remap_centres_cells :
    GRIDSIZE = 64 ∧
    scale = ((GRIDSIZE : ℚ) - 1) / (GRIDSIZE : ℚ) ∧ scale = 63 / 64 ∧
    offset = 1 / (2 * (GRIDSIZE : ℚ)) ∧ offset = 1 / 128 ∧
    (∀ i : Nat, i < GRIDSIZE →
      remap ((i : ℚ) / ((GRIDSIZE : ℚ) - 1)) = (2 * (i : ℚ) + 1) / (2 * (GRIDSIZE : ℚ))) ∧
    (∀ x : ℚ, 0 ≤ x → x ≤ 1 →
      1 / (2 * (GRIDSIZE : ℚ)) ≤ remap x ∧ remap x ≤ 1 - 1 / (2 * (GRIDSIZE : ℚ)) ∧
      0 < remap x ∧ remap x < 1) := by
  have hs : scale = 63 / 64 := by
    simp only [scale, GRIDSIZE]
    norm_num
  have ho : offset = 1 / 128 := by
    simp only [offset, GRIDSIZE]
    norm_num
  refine ⟨rfl, ?_, hs, ?_, ho, ?_, ?_⟩
  · rw [hs]
    simp only [GRIDSIZE]
    norm_num
  · rw [ho]
    simp only [GRIDSIZE]
    norm_num
  · intro i _
    simp only [remap, hs, ho, GRIDSIZE]
    norm_num
    ring
  · intro x h0 h1
    simp only [remap, hs, ho, GRIDSIZE]
    norm_num
    refine ⟨?_, ?_, ?_, ?_⟩ <;> linarith

/-- C10 witness: grid index 63 (input 1) lands on the centre 127/128 of the
last texel, and the input 1/2 lands inside the texture. -/
theorem remap_centres_cells_witness :
    remap (((63 : Nat) : ℚ) / ((GRIDSIZE : ℚ) - 1)) =
      (2 * ((63 : Nat) : ℚ) + 1) / (2 * (GRIDSIZE : ℚ)) ∧
    (1 / (2 * (GRIDSIZE : ℚ)) ≤ remap (1 / 2) ∧ remap (1 / 2) ≤ 1 - 1 / (2 * (GRIDSIZE : ℚ)) ∧
      0 < remap (1 / 2) ∧ remap (1 / 2) < 1) :=
  ⟨remap_centres_cells.2.2.2.2.2.1 63 (by decide),
   remap_centres_cells.2.2.2.2.2.2 (1 / 2) (by norm_num) (by norm_num)⟩

/-! ## The LUT builder -/

theorem setupLUT_no_property (env : LutEnv) (cs : CmsScreen) (textures : List Nat)
    (h : env.XGetWindowProperty.res ≠ Success ∨ env.XGetWindowProperty.len = 0) :
    setupLUT env cs textures =
      if cs.lut ≠ 0 then
        { screen := { cs with lut := 0 }, textures := textures.erase cs.lut,
          calls := [LutCall.glDeleteTextures cs.lut, LutCall.XGetWindowProperty, LutCall.XFree] }
      else
        { screen := cs, textures := textures,
          calls := [LutCall.XGetWindowProperty, LutCall.XFree] } := by
  have hc : (env.XGetWindowProperty.res != Success || env.XGetWindowProperty.len == 0) = true := by
    rcases h with h | h
    · simp [h]
    · simp [h]
  unfold setupLUT
  simp only [hc, if_true]
  by_cases hl : cs.lut = 0
  · simp [hl]
  · simp [hl]

theorem setupLUT_no_profile (env : LutEnv) (cs : CmsScreen) (textures : List Nat)
    (h1 : ¬ (env.XGetWindowProperty.res ≠ Success ∨ env.XGetWindowProperty.len = 0))
    (h2 : env.cmsOpenProfileFromMem env.XGetWindowProperty.icc env.XGetWindowProperty.len = 0) :
    setupLUT env cs textures =
      if cs.lut ≠ 0 then
        { screen := { cs with lut := 0 }, textures := textures.erase cs.lut,
          calls := [LutCall.glDeleteTextures cs.lut, LutCall.XGetWindowProperty,
            LutCall.cmsOpenProfileFromMem env.XGetWindowProperty.len, LutCall.XFree] }
      else
        { screen := cs, textures := textures,
          calls := [LutCall.XGetWindowProperty,
            LutCall.cmsOpenProfileFromMem env.XGetWindowProperty.len, LutCall.XFree] } := by
  have hc : (env.XGetWindowProperty.res != Success || env.XGetWindowProperty.len == 0) = false := by
    cases hb : (env.XGetWindowProperty.res != Success || env.XGetWindowProperty.len == 0) with
    | false => rfl
    | true =>
      exfalso
      apply h1
      simpa using hb
  unfold setupLUT
  simp only [hc, h2]
  by_cases hl : cs.lut = 0
  · simp [hl]
  · simp [hl]

theorem setupLUT_textures_success (env : LutEnv) (cs : CmsScreen) (textures : List Nat)
    (h1 : ¬ (env.XGetWindowProperty.res ≠ Success ∨ env.XGetWindowProperty.len = 0))
    (h2 : env.cmsOpenProfileFromMem env.XGetWindowProperty.icc env.XGetWindowProperty.len ≠ 0) :
    (setupLUT env cs textures).screen.lut = env.glGenTextures (baseline cs textures) ∧
    (setupLUT env cs textures).textures =
      baseline cs textures ++ [env.glGenTextures (baseline cs textures)] ∧
    (setupLUT env cs textures).calls.filter LutCall.isGen =
      [LutCall.glGenTextures (env.glGenTextures (baseline cs textures))] ∧
    (setupLUT env cs textures).calls.filter LutCall.isDelete =
      if cs.lut ≠ 0 then [LutCall.glDeleteTextures cs.lut] else [] := by
  have hc : (env.XGetWindowProperty.res != Success || env.XGetWindowProperty.len == 0) = false := by
    cases hb : (env.XGetWindowProperty.res != Success || env.XGetWindowProperty.len == 0) with
    | false => rfl
    | true =>
      exfalso
      apply h1
      simpa using hb
  unfold setupLUT baseline
  simp only [hc, h2]
  by_cases hl : cs.lut = 0
  · simp [hl, h2, LutCall.isGen, LutCall.isDelete, List.filter]
  · simp [hl, h2, LutCall.isGen, LutCall.isDelete, List.filter]

/-- C6: when a LUT texture exists and the profile property is missing,
zero-length or does not parse, `setupLUT` leaves `lut == 0`, deletes the prior
texture exactly once and generates none, so the live textures are those from
before without the LUT (one fewer).  And after every run the live textures are
those from before without the prior LUT, plus at most one texture, which is
then the new LUT; at most one texture is generated per run. -/
theorem setupLUT_releases_prior (env : LutEnv) (cs : CmsScreen) (textures : List Nat) :
    (cs.lut ≠ 0 → cs.lut ∈ textures →
      (env.XGetWindowProperty.res ≠ Success ∨ env.XGetWindowProperty.len = 0 ∨
        env.cmsOpenProfileFromMem env.XGetWindowProperty.icc env.XGetWindowProperty.len = 0) →
      (setupLUT env cs textures).screen.lut = 0 ∧
      (setupLUT env cs textures).textures = textures.erase cs.lut ∧
      (setupLUT env cs textures).textures.length + 1 = textures.length ∧
      (setupLUT env cs textures).calls.filter LutCall.isDelete =
        [LutCall.glDeleteTextures cs.lut] ∧
      (setupLUT env cs textures).calls.filter LutCall.isGen = []) ∧
    (((setupLUT env cs textures).screen.lut = 0 ∧
        (setupLUT env cs textures).textures = baseline cs textures) ∨
      (setupLUT env cs textures).textures =
        baseline cs textures ++ [(setupLUT env cs textures).screen.lut]) ∧
    (setupLUT env cs textures).textures.length ≤ (baseline cs textures).length + 1 ∧
    ((setupLUT env cs textures).calls.filter LutCall.isGen).length ≤ 1 := by
  by_cases h1 : env.XGetWindowProperty.res ≠ Success ∨ env.XGetWindowProperty.len = 0
  · have e := setupLUT_no_property env cs textures h1
    by_cases hl : cs.lut = 0
    · rw [e]
      simp [hl, baseline, LutCall.isGen, List.filter]
    · rw [e]
      rw [if_pos hl]
      have hb : baseline cs textures = textures.erase cs.lut := by simp [baseline, hl]
      rw [hb]
      refine ⟨fun _ hmem _ => ⟨rfl, rfl, ?_, ?_, ?_⟩, Or.inl ⟨rfl, rfl⟩, by simp, ?_⟩
      · show (textures.erase cs.lut).length + 1 = textures.length
        rw [List.length_erase_of_mem hmem]
        have := List.length_pos_of_mem hmem
        omega
      · simp [LutCall.isDelete, List.filter]
      · simp [LutCall.isGen, List.filter]
      · simp [LutCall.isGen, List.filter]
  · by_cases h2 : env.cmsOpenProfileFromMem env.XGetWindowProperty.icc
        env.XGetWindowProperty.len = 0
    · have e := setupLUT_no_profile env cs textures h1 h2
      by_cases hl : cs.lut = 0
      · rw [e]
        simp [hl, baseline, LutCall.isGen, List.filter]
      · rw [e]
        rw [if_pos hl]
        have hb : baseline cs textures = textures.erase cs.lut := by simp [baseline, hl]
        rw [hb]
        refine ⟨fun _ hmem _ => ⟨rfl, rfl, ?_, ?_, ?_⟩, Or.inl ⟨rfl, rfl⟩, by simp, ?_⟩
        · show (textures.erase cs.lut).length + 1 = textures.length
          rw [List.length_erase_of_mem hmem]
          have := List.length_pos_of_mem hmem
          omega
        · simp [LutCall.isDelete, List.filter]
        · simp [LutCall.isGen, List.filter]
        · simp [LutCall.isGen, List.filter]
    · obtain ⟨s1, s2, s3, -⟩ := setupLUT_textures_success env cs textures h1 h2
      refine ⟨?_, Or.inr ?_, ?_, ?_⟩
      · intro _ _ hf
        rcases hf with hf | hf | hf
        · exact absurd (Or.inl hf) h1
        · exact absurd (Or.inr hf) h1
        · exact absurd hf h2
      · rw [s2, s1]
      · rw [s2]
        simp
      · rw [s3]
        simp

/-- C6 witness: a screen with LUT texture 7, live among textures 3, 7, 1, on
a host without profile property: afterwards the LUT is absent and textures 3
and 1 are live. -/
theorem setupLUT_releases_prior_witness :
    (setupLUT noProfileEnv sampleScreen [3, 7, 1]).screen.lut = 0 ∧
    (setupLUT noProfileEnv sampleScreen [3, 7, 1]).textures = [3, 7, 1].erase sampleScreen.lut ∧
    (setupLUT noProfileEnv sampleScreen [3, 7, 1]).textures.length + 1 = [3, 7, 1].length ∧
    (setupLUT noProfileEnv sampleScreen [3, 7, 1]).calls.filter LutCall.isDelete =
      [LutCall.glDeleteTextures sampleScreen.lut] ∧
    (setupLUT noProfileEnv sampleScreen [3, 7, 1]).calls.filter LutCall.isGen = [] :=
  (setupLUT_releases_prior noProfileEnv sampleScreen [3, 7, 1]).1 (by decide) (by decide)
    (Or.inr (Or.inl rfl))

/-- C5: on a host where the profile parses (handle 11) but
`cmsCreateTransform` returns `NULL`, `setupLUT` does not stop: it hands the
`NULL` transform to `cmsDoTransform`, generates a texture, and leaves
`lut != 0` (texture 2, now live next to 3 and 1). -/
theorem setupLUT_null_transform_creates_texture :
    noTransformEnv.cmsOpenProfileFromMem noTransformEnv.XGetWindowProperty.icc
      noTransformEnv.XGetWindowProperty.len = 11 ∧
    noTransformEnv.cmsCreateTransform noTransformEnv.cmsCreate_sRGBProfile 11 = 0 ∧
    (setupLUT noTransformEnv sampleScreen [3, 7, 1]).screen.lut = 2 ∧
    (setupLUT noTransformEnv sampleScreen [3, 7, 1]).textures = [3, 1, 2] ∧
    (setupLUT noTransformEnv sampleScreen [3, 7, 1]).calls.any (LutCall.isDoTransform 0) = true ∧
    (setupLUT noTransformEnv sampleScreen [3, 7, 1]).calls.any LutCall.isGen = true := by
  refine ⟨rfl, rfl, ?_, ?_, ?_, ?_⟩
  · decide
  · decide
  · decide
  · decide

end Cms
